import Mathlib

/-!
Shallow embedding of `src/firmware/src/main.cpp` (ESP32-C3 Android Auto WiFi
bridge). The firmware is a single cooperative loop over a small set of global
variables; we model the globals as a `Bridge` record, the collaborator inputs
polled during one loop iteration as an `Env` record, and each loop iteration
as a pure function `loopTick : Bridge → Env → Bridge × TickTrace`, where
`TickTrace` records the externally observable actions of the tick (heartbeat
firing, accept/stop calls on the listener, read calls, the blocking recovery
delay, and the bring-up attempt's parameters).

Machine integers: `millis()` returns `unsigned long` (32 bits on ESP32) and
`heartbeatCount` is `uint32_t`, so all arithmetic on them is taken mod 2^32.
-/

/-- Bridge lifecycle state, mirroring `enum class State` in main.cpp
(lines 41-48). Spec names: Init, ApStarting, ApReady, ClientConnected,
SessionActive, Error. -/
inductive State where
  | INIT
  | AP_STARTING
  | AP_READY
  | CLIENT_CONNECTED
  | AA_ACTIVE
  | ERROR
deriving Repr, DecidableEq

/-- The access-point configuration constants of main.cpp (lines 21-33):
SSID, passphrase, channel, visibility, max associations, static
address/gateway/subnet, and the session listener port `AA_PORT`. -/
structure APConfig where
  ssid : String
  password : String
  channel : Nat
  hidden : Bool
  maxConnections : Nat
  ip : List Nat
  gateway : List Nat
  subnet : List Nat
  port : Nat
deriving Repr, DecidableEq

/-- The one compile-time configuration value used by every bring-up call. -/
def apConfig : APConfig :=
  { ssid := "AndroidAutoWiFi",
    password := "android123",
    channel := 6,
    hidden := false,
    maxConnections := 1,
    ip := [192, 168, 4, 1],
    gateway := [192, 168, 4, 1],
    subnet := [255, 255, 255, 0],
    port := 5288 }

/-- The firmware's mutable globals (main.cpp lines 35, 50-53):
`currentState`, `lastHeartbeat`, `clientConnectedTime`, `heartbeatCount`,
and the single client handle `aaClient`. The handle is `some addr` when a
valid connection is held (the C++ `WiFiClient` converts to `true`), `none`
when default-constructed or stopped; `addr` is the remote address captured
at admission. -/
structure Bridge where
  currentState : State
  lastHeartbeat : Nat
  clientConnectedTime : Nat
  heartbeatCount : Nat
  aaClient : Option Nat
deriving Repr, DecidableEq

/-- Initial values of the globals (main.cpp lines 50-53); `aaClient` is
default-constructed, not a live handle. -/
def initBridge : Bridge :=
  { currentState := State.INIT,
    lastHeartbeat := 0,
    clientConnectedTime := 0,
    heartbeatCount := 0,
    aaClient := none }

/-- One tick's inputs from the collaborators: the `millis()` reading, the
listener poll `aaServer.hasClient()` and the pending connection
`aaServer.available()` would return (`none` = invalid client), the held
client's `connected()` poll, the successive `read()` results while
`available()` stays true, and the radio's `softAPConfig` / `softAP`
outcomes. -/
structure Env where
  now : Nat
  hasClient : Bool
  pending : Option Nat
  peerConnected : Bool
  reads : List Int
  configOk : Bool
  startOk : Bool
deriving Repr, DecidableEq

/-- 2^32, the modulus of `unsigned long` / `uint32_t` on the ESP32-C3. -/
def ULMAX : Nat := 4294967296

/-- Wrapping 32-bit subtraction, as in the C expression `now - lastHeartbeat`
on `unsigned long` operands. -/
def ulSub (a b : Nat) : Nat :=
  (a % ULMAX + (ULMAX - b % ULMAX)) % ULMAX

/-- The value of `now - lastHeartbeat` computed at the top of `loop()`
(main.cpp line 100): elapsed milliseconds since the last heartbeat firing,
in wrapping 32-bit arithmetic. -/
def hbElapsed (b : Bridge) (env : Env) : Nat :=
  ulSub env.now b.lastHeartbeat

/-- The heartbeat block of `loop()` (main.cpp lines 100-104): when
`now - lastHeartbeat >= 5000`, reset `lastHeartbeat` to `now` and increment
the `uint32_t` counter; `printStatus()` only reads state. -/
def hbUpd (b : Bridge) (env : Env) : Bridge :=
  if 5000 ≤ hbElapsed b env then
    { b with lastHeartbeat := env.now % ULMAX,
             heartbeatCount := (b.heartbeatCount + 1) % ULMAX }
  else b

/-- `aaClient.stop()` / `reject.stop()`: releases the transport handle.
Stopping an already-released handle is a no-op. -/
def stopClient (_ : Option Nat) : Option Nat := none

/-- The read loop of `handleClient` (main.cpp lines 203-220): for each
`read()` result in order, a strictly positive length while the state is
`CLIENT_CONNECTED` switches it to `AA_ACTIVE`; nothing else is written. -/
def drainState (s : State) (reads : List Int) : State :=
  reads.foldl
    (fun st len =>
      if 0 < len ∧ st = State.CLIENT_CONNECTED then State.AA_ACTIVE else st)
    s

/-- Observable actions of one `handleClient` call: number of `read()` calls
performed and whether `aaClient.stop()` was called. -/
structure ClientTrace where
  readsDone : Nat
  clientStopped : Bool
deriving Repr, DecidableEq

/-- `handleClient` (main.cpp lines 194-221). First the liveness check
`!aaClient || !aaClient.connected()`: on failure, set state to `AP_READY`,
stop the handle and return with no reads. Otherwise drain all available
data in 512-byte chunks, flipping `CLIENT_CONNECTED` to `AA_ACTIVE` on the
first positive-length read. -/
def handleClient (b : Bridge) (env : Env) : Bridge × ClientTrace :=
  if b.aaClient.isNone || !env.peerConnected then
    ({ b with currentState := State.AP_READY, aaClient := stopClient b.aaClient },
      { readsDone := 0, clientStopped := true })
  else
    ({ b with currentState := drainState b.currentState env.reads },
      { readsDone := env.reads.length, clientStopped := false })

/-- Observable actions of one `setupWiFiAP` call: the successive values
written to `currentState` during the call, the configuration passed to
`softAPConfig` / `softAP`, whether `softAP` ran and succeeded, and the
listener opened by `aaServer.begin()` as (port, noDelay) when reached. -/
structure SetupTrace where
  visited : List State
  usedConfig : APConfig
  apStarted : Bool
  listenerOpened : Option (Nat × Bool)
deriving Repr, DecidableEq

/-- `setupWiFiAP` (main.cpp lines 151-188). Sets `AP_STARTING`, tears down
radio state, applies the static address configuration (failure: `ERROR`,
return before `softAP`), starts the AP (failure: `ERROR`, return before
`aaServer.begin()`), then opens the listener on `AA_PORT` with
`setNoDelay(true)` and sets `AP_READY`. It never touches `aaClient`. -/
def setupWiFiAP (b : Bridge) (env : Env) : Bridge × SetupTrace :=
  let b1 : Bridge := { b with currentState := State.AP_STARTING }
  if !env.configOk then
    ({ b1 with currentState := State.ERROR },
      { visited := [State.AP_STARTING, State.ERROR],
        usedConfig := apConfig, apStarted := false, listenerOpened := none })
  else if !env.startOk then
    ({ b1 with currentState := State.ERROR },
      { visited := [State.AP_STARTING, State.ERROR],
        usedConfig := apConfig, apStarted := false, listenerOpened := none })
  else
    ({ b1 with currentState := State.AP_READY },
      { visited := [State.AP_STARTING, State.AP_READY],
        usedConfig := apConfig, apStarted := true,
        listenerOpened := some (apConfig.port, true) })

/-- Observable actions of one loop iteration: whether the heartbeat fired,
whether `aaServer.available()` was called on a pending connection, whether
that transient connection was immediately stopped (the reject branch),
the number of `read()` calls, the blocking `delay(5000)` of the recovery
branch (0 when that branch did not run), and the bring-up trace when
`setupWiFiAP` ran. -/
structure TickTrace where
  heartbeatFired : Bool
  pendingAccepted : Bool
  pendingStopped : Bool
  readsDone : Nat
  recoveryDelayMs : Nat
  setupRan : Option SetupTrace
deriving Repr, DecidableEq

/-- One iteration of `loop()` (main.cpp lines 96-145): read `millis()`, run
the heartbeat block, then dispatch on `currentState` (which the heartbeat
block never writes). In `AP_READY`, poll the listener: with a live,
connected handle a pending connection is accepted transiently and stopped;
otherwise it is accepted and, when valid, becomes the session with
`clientConnectedTime = now` and state `CLIENT_CONNECTED`. In
`CLIENT_CONNECTED` / `AA_ACTIVE`, run `handleClient`. In `ERROR`, block
5000 ms and rerun `setupWiFiAP`. `INIT` / `AP_STARTING` hit `default`. -/
def loopTick (b : Bridge) (env : Env) : Bridge × TickTrace :=
  let fired : Bool := decide (5000 ≤ hbElapsed b env)
  let b1 : Bridge := hbUpd b env
  match b.currentState with
  | State.AP_READY =>
    if env.hasClient then
      if b1.aaClient.isSome && env.peerConnected then
        (b1, { heartbeatFired := fired, pendingAccepted := true,
               pendingStopped := true, readsDone := 0,
               recoveryDelayMs := 0, setupRan := none })
      else
        match env.pending with
        | some c =>
          ({ b1 with currentState := State.CLIENT_CONNECTED,
                     aaClient := some c,
                     clientConnectedTime := env.now % ULMAX },
            { heartbeatFired := fired, pendingAccepted := true,
              pendingStopped := false, readsDone := 0,
              recoveryDelayMs := 0, setupRan := none })
        | none =>
          ({ b1 with aaClient := none },
            { heartbeatFired := fired, pendingAccepted := true,
              pendingStopped := false, readsDone := 0,
              recoveryDelayMs := 0, setupRan := none })
    else
      (b1, { heartbeatFired := fired, pendingAccepted := false,
             pendingStopped := false, readsDone := 0,
             recoveryDelayMs := 0, setupRan := none })
  | State.CLIENT_CONNECTED =>
    let r := handleClient b1 env
    (r.1, { heartbeatFired := fired, pendingAccepted := false,
            pendingStopped := false, readsDone := r.2.readsDone,
            recoveryDelayMs := 0, setupRan := none })
  | State.AA_ACTIVE =>
    let r := handleClient b1 env
    (r.1, { heartbeatFired := fired, pendingAccepted := false,
            pendingStopped := false, readsDone := r.2.readsDone,
            recoveryDelayMs := 0, setupRan := none })
  | State.ERROR =>
    let r := setupWiFiAP b1 env
    (r.1, { heartbeatFired := fired, pendingAccepted := false,
            pendingStopped := false, readsDone := 0,
            recoveryDelayMs := 5000, setupRan := some r.2 })
  | _ =>
    (b1, { heartbeatFired := fired, pendingAccepted := false,
           pendingStopped := false, readsDone := 0,
           recoveryDelayMs := 0, setupRan := none })

/-- States the firmware can be in at a loop-iteration boundary: `setup()`
runs `setupWiFiAP` once from the initial globals, then `loop()` ticks
forever. -/
inductive Reachable : Bridge → Prop where
  | boot (env : Env) : Reachable (setupWiFiAP initBridge env).1
  | step (b : Bridge) (env : Env) : Reachable b → Reachable (loopTick b env).1

example :
    (loopTick { initBridge with currentState := State.AP_READY }
      { now := 0, hasClient := true, pending := some 7, peerConnected := false,
        reads := [], configOk := true, startOk := true }).1.currentState
      = State.CLIENT_CONNECTED := by decide

example :
    (loopTick { initBridge with currentState := State.CLIENT_CONNECTED, aaClient := some 7 }
      { now := 0, hasClient := false, pending := none, peerConnected := true,
        reads := [128, 64], configOk := true, startOk := true }).1.currentState
      = State.AA_ACTIVE := by decide

/-! ### Helper lemmas -/

lemma hbUpd_currentState (b : Bridge) (env : Env) :
    (hbUpd b env).currentState = b.currentState := by
  unfold hbUpd; split <;> rfl

lemma hbUpd_aaClient (b : Bridge) (env : Env) :
    (hbUpd b env).aaClient = b.aaClient := by
  unfold hbUpd; split <;> rfl

lemma hbUpd_clientConnectedTime (b : Bridge) (env : Env) :
    (hbUpd b env).clientConnectedTime = b.clientConnectedTime := by
  unfold hbUpd; split <;> rfl

lemma hbUpd_heartbeatCount (b : Bridge) (env : Env) :
    (hbUpd b env).heartbeatCount =
      if 5000 ≤ hbElapsed b env then (b.heartbeatCount + 1) % ULMAX
      else b.heartbeatCount := by
  unfold hbUpd; split <;> rfl

lemma setupWiFiAP_aaClient (b : Bridge) (env : Env) :
    (setupWiFiAP b env).1.aaClient = b.aaClient := by
  unfold setupWiFiAP
  split
  · rfl
  · split <;> rfl

lemma setupWiFiAP_state (b : Bridge) (env : Env) :
    (setupWiFiAP b env).1.currentState =
      if env.configOk && env.startOk then State.AP_READY else State.ERROR := by
  unfold setupWiFiAP
  cases hc : env.configOk <;> cases hs : env.startOk <;> simp [hc, hs]

lemma drainState_AA (l : List Int) :
    drainState State.AA_ACTIVE l = State.AA_ACTIVE := by
  induction l with
  | nil => rfl
  | cons a l ih =>
    unfold drainState at *
    simpa using ih

lemma drainState_nonpos (s : State) (l : List Int) (h : ∀ r ∈ l, r ≤ 0) :
    drainState s l = s := by
  induction l with
  | nil => rfl
  | cons a l ih =>
    unfold drainState at *
    have ha : ¬ (0 < a) := by
      have := h a (List.mem_cons_self a l)
      omega
    simp only [List.foldl_cons, ha, false_and, if_neg, not_false_iff]
    exact ih (fun r hr => h r (List.mem_cons_of_mem a hr))

lemma drainState_CC_pos (l : List Int) (h : ∃ r ∈ l, 0 < r) :
    drainState State.CLIENT_CONNECTED l = State.AA_ACTIVE := by
  induction l with
  | nil => simp at h
  | cons a l ih =>
    unfold drainState at *
    by_cases ha : 0 < a
    · simp only [List.foldl_cons, ha, true_and, if_pos]
      simpa using drainState_AA l
    · simp only [List.foldl_cons, ha, false_and, if_neg, not_false_iff]
      rcases h with ⟨r, hr, hrpos⟩
      rcases List.mem_cons.mp hr with rfl | hr'
      · exact absurd hrpos ha
      · exact ih ⟨r, hr', hrpos⟩

lemma drainState_cases (s : State) (l : List Int) :
    drainState s l = s ∨ drainState s l = State.AA_ACTIVE := by
  induction l generalizing s with
  | nil => exact Or.inl rfl
  | cons a l ih =>
    unfold drainState at *
    by_cases hc : 0 < a ∧ s = State.CLIENT_CONNECTED
    · simp only [List.foldl_cons, hc, if_pos]
      right; simpa using drainState_AA l
    · simp only [List.foldl_cons, hc, if_neg, not_false_iff]
      exact ih s

lemma loopTick_state_ne_error (b : Bridge) (env : Env)
    (hb : b.currentState ≠ State.ERROR) :
    (loopTick b env).1.currentState ≠ State.ERROR := by
  cases hc : b.currentState
  case ERROR => exact absurd hc hb
  case INIT => simp [loopTick, hc, hbUpd_currentState]
  case AP_STARTING => simp [loopTick, hc, hbUpd_currentState]
  case AP_READY =>
    simp only [loopTick, hc]
    by_cases hhc : env.hasClient = true
    · simp only [hhc, if_true]
      by_cases hcc : ((hbUpd b env).aaClient.isSome && env.peerConnected) = true
      · simp [hcc, hbUpd_currentState, hc]
      · cases hp : env.pending <;> simp [hcc, hp, hbUpd_currentState, hc]
    · simp [hhc, hbUpd_currentState, hc]
  case CLIENT_CONNECTED =>
    simp only [loopTick, hc]
    unfold handleClient
    by_cases hd : ((hbUpd b env).aaClient.isNone || !env.peerConnected) = true
    · simp [hd]
    · have hs : (hbUpd b env).currentState = State.CLIENT_CONNECTED := by
        rw [hbUpd_currentState, hc]
      rcases drainState_cases State.CLIENT_CONNECTED env.reads with h | h <;>
        simp [hd, hs, h]
  case AA_ACTIVE =>
    simp only [loopTick, hc]
    unfold handleClient
    by_cases hd : ((hbUpd b env).aaClient.isNone || !env.peerConnected) = true
    · simp [hd]
    · have hs : (hbUpd b env).currentState = State.AA_ACTIVE := by
        rw [hbUpd_currentState, hc]
      rcases drainState_cases State.AA_ACTIVE env.reads with h | h <;>
        simp [hd, hs, h]

lemma error_no_client (b : Bridge) (h : Reachable b) :
    b.currentState = State.ERROR → b.aaClient = none := by
  induction h with
  | boot env =>
    intro _
    rw [setupWiFiAP_aaClient]
    rfl
  | step b env hb ih =>
    intro he
    by_cases hbe : b.currentState = State.ERROR
    · have hcl : (loopTick b env).1.aaClient = b.aaClient := by
        simp [loopTick, hbe, setupWiFiAP_aaClient, hbUpd_aaClient]
      rw [hcl]
      exact ih hbe
    · exact absurd he (loopTick_state_ne_error b env hbe)

/-! ### Claim theorems -/

/-- C3: `setupWiFiAP` bring-up. If applying the static address/gateway/subnet
configuration fails, the state becomes `ERROR`, the access point is not
started and no listener is opened; otherwise if access-point activation
fails, the state becomes `ERROR` (still no listener); otherwise the session
listener is opened on the configured port 5288 with no-coalescing-delay
semantics and the state becomes `AP_READY`. -/
theorem c3_bringUp (b : Bridge) (env : Env) :
    (env.configOk = false →
      (setupWiFiAP b env).1.currentState = State.ERROR ∧
      (setupWiFiAP b env).2.apStarted = false ∧
      (setupWiFiAP b env).2.listenerOpened = none) ∧
    (env.configOk = true → env.startOk = false →
      (setupWiFiAP b env).1.currentState = State.ERROR ∧
      (setupWiFiAP b env).2.listenerOpened = none) ∧
    (env.configOk = true → env.startOk = true →
      (setupWiFiAP b env).1.currentState = State.AP_READY ∧
      (setupWiFiAP b env).2.listenerOpened = some (apConfig.port, true) ∧
      apConfig.port = 5288) := by
  refine ⟨fun hc => ?_, fun hc hs => ?_, fun hc hs => ?_⟩
  · simp [setupWiFiAP, hc]
  · simp [setupWiFiAP, hc, hs]
  · simp [setupWiFiAP, hc, hs, apConfig]

theorem c3_bringUp_witness :
    ((setupWiFiAP initBridge
        { now := 0, hasClient := false, pending := none, peerConnected := false,
          reads := [], configOk := false, startOk := false }).1.currentState
          = State.ERROR ∧
      (setupWiFiAP initBridge
        { now := 0, hasClient := false, pending := none, peerConnected := false,
          reads := [], configOk := false, startOk := false }).2.apStarted = false ∧
      (setupWiFiAP initBridge
        { now := 0, hasClient := false, pending := none, peerConnected := false,
          reads := [], configOk := false, startOk := false }).2.listenerOpened = none) ∧
    ((setupWiFiAP initBridge
        { now := 0, hasClient := false, pending := none, peerConnected := false,
          reads := [], configOk := true, startOk := true }).1.currentState
          = State.AP_READY ∧
      (setupWiFiAP initBridge
        { now := 0, hasClient := false, pending := none, peerConnected := false,
          reads := [], configOk := true, startOk := true }).2.listenerOpened
          = some (apConfig.port, true) ∧
      apConfig.port = 5288) :=
  ⟨(c3_bringUp initBridge _).1 rfl, (c3_bringUp initBridge _).2.2 rfl rfl⟩

lemma setupWiFiAP_trace (b : Bridge) (env : Env) :
    (setupWiFiAP b env).2.visited.head? = some State.AP_STARTING ∧
    (setupWiFiAP b env).2.usedConfig = apConfig := by
  unfold setupWiFiAP
  split
  · exact ⟨rfl, rfl⟩
  · split <;> exact ⟨rfl, rfl⟩

/-- A boot environment whose bring-up fails at the configuration step. -/
def envFail : Env :=
  { now := 0, hasClient := false, pending := none, peerConnected := false,
    reads := [], configOk := false, startOk := false }

/-- A tick environment whose bring-up succeeds, with no client activity. -/
def envGood : Env :=
  { now := 0, hasClient := false, pending := none, peerConnected := false,
    reads := [], configOk := true, startOk := true }

/-- The reachable `ERROR` state produced by a failed boot. -/
def errBridge : Bridge := (setupWiFiAP initBridge envFail).1

/-- C2: in any reachable state in `ERROR`, the tick runs the recovery
bring-up and afterwards no previously-live session handle remains held:
`aaClient` is `none` after the recovery tick. (In every reachable `ERROR`
state the handle is already released, and `setupWiFiAP` never creates
one.) -/
theorem c2_recovery_releases (b : Bridge) (env : Env)
    (hr : Reachable b) (he : b.currentState = State.ERROR) :
    (loopTick b env).2.setupRan.isSome = true ∧
    (loopTick b env).1.aaClient = none := by
  have hn : b.aaClient = none := error_no_client b hr he
  constructor
  · simp [loopTick, he]
  · simp [loopTick, he, setupWiFiAP_aaClient, hbUpd_aaClient, hn]

theorem c2_recovery_releases_witness :
    Reachable errBridge ∧ errBridge.currentState = State.ERROR ∧
    ((loopTick errBridge envGood).2.setupRan.isSome = true ∧
      (loopTick errBridge envGood).1.aaClient = none) :=
  ⟨Reachable.boot envFail, by decide,
    c2_recovery_releases errBridge envGood (Reachable.boot envFail) (by decide)⟩

/-- C7: from the `ERROR` state, every tick blocks for the fixed 5000 ms
recovery delay and reruns the full bring-up, which first returns the state
to `AP_STARTING` and uses the identical compile-time configuration; on
failure the state is `ERROR` again (so the flat-interval retry repeats
indefinitely, with no failure counter in the state), on success it is
`AP_READY`. -/
theorem c7_error_recovery (b : Bridge) (env : Env)
    (he : b.currentState = State.ERROR) :
    (loopTick b env).2.recoveryDelayMs = 5000 ∧
    (∃ st, (loopTick b env).2.setupRan = some st ∧
      st.visited.head? = some State.AP_STARTING ∧
      st.usedConfig = apConfig) ∧
    ((env.configOk = false ∨ env.startOk = false) →
      (loopTick b env).1.currentState = State.ERROR) ∧
    (env.configOk = true → env.startOk = true →
      (loopTick b env).1.currentState = State.AP_READY) := by
  refine ⟨?_, ?_, ?_, ?_⟩
  · simp [loopTick, he]
  · refine ⟨(setupWiFiAP (hbUpd b env) env).2, ?_, (setupWiFiAP_trace _ _).1,
      (setupWiFiAP_trace _ _).2⟩
    simp [loopTick, he]
  · intro h
    rcases h with h | h <;> simp [loopTick, he, setupWiFiAP_state, h]
  · intro hc hs
    simp [loopTick, he, setupWiFiAP_state, hc, hs]

theorem c7_error_recovery_witness :
    errBridge.currentState = State.ERROR ∧
    (loopTick errBridge envFail).2.recoveryDelayMs = 5000 ∧
    (loopTick errBridge envFail).1.currentState = State.ERROR ∧
    (loopTick errBridge envGood).1.currentState = State.AP_READY :=
  ⟨by decide, (c7_error_recovery errBridge envFail (by decide)).1,
    (c7_error_recovery errBridge envFail (by decide)).2.2.1 (Or.inl rfl),
    (c7_error_recovery errBridge envGood (by decide)).2.2.2 rfl rfl⟩

lemma loopTick_heartbeatFired (b : Bridge) (env : Env) :
    (loopTick b env).2.heartbeatFired = decide (5000 ≤ hbElapsed b env) := by
  cases hc : b.currentState <;> simp only [loopTick, hc]
  case AP_READY =>
    by_cases hhc : env.hasClient = true
    · simp only [hhc, if_true]
      by_cases hcc : ((hbUpd b env).aaClient.isSome && env.peerConnected) = true
      · simp [hcc]
      · cases hp : env.pending <;> simp [hcc, hp]
    · simp [hhc]

lemma loopTick_heartbeatCount (b : Bridge) (env : Env) :
    (loopTick b env).1.heartbeatCount = (hbUpd b env).heartbeatCount := by
  cases hc : b.currentState <;> simp only [loopTick, hc]
  case AP_READY =>
    by_cases hhc : env.hasClient = true
    · simp only [hhc, if_true]
      by_cases hcc : ((hbUpd b env).aaClient.isSome && env.peerConnected) = true
      · simp [hcc]
      · cases hp : env.pending <;> simp [hcc, hp]
    · simp [hhc]
  case CLIENT_CONNECTED =>
    unfold handleClient
    split <;> rfl
  case AA_ACTIVE =>
    unfold handleClient
    split <;> rfl
  case ERROR =>
    show (setupWiFiAP (hbUpd b env) env).1.heartbeatCount = _
    unfold setupWiFiAP
    split
    · rfl
    · split <;> rfl

lemma loopTick_lastHeartbeat (b : Bridge) (env : Env) :
    (loopTick b env).1.lastHeartbeat = (hbUpd b env).lastHeartbeat := by
  cases hc : b.currentState <;> simp only [loopTick, hc]
  case AP_READY =>
    by_cases hhc : env.hasClient = true
    · simp only [hhc, if_true]
      by_cases hcc : ((hbUpd b env).aaClient.isSome && env.peerConnected) = true
      · simp [hcc]
      · cases hp : env.pending <;> simp [hcc, hp]
    · simp [hhc]
  case CLIENT_CONNECTED =>
    unfold handleClient
    split <;> rfl
  case AA_ACTIVE =>
    unfold handleClient
    split <;> rfl
  case ERROR =>
    show (setupWiFiAP (hbUpd b env) env).1.lastHeartbeat = _
    unfold setupWiFiAP
    split
    · rfl
    · split <;> rfl

/-- C6: on every tick, if the 32-bit elapsed time since the last heartbeat
firing is at least 5000 ms, exactly one heartbeat fires (the counter is
bumped once); if less than 5000 ms has elapsed, none fires. The heartbeat
block runs before the state dispatch, so this holds in every `State`,
including `ERROR`. -/
theorem c6_heartbeat_period (b : Bridge) (env : Env) :
    (5000 ≤ hbElapsed b env →
      (loopTick b env).2.heartbeatFired = true ∧
      (loopTick b env).1.heartbeatCount = (b.heartbeatCount + 1) % ULMAX) ∧
    (hbElapsed b env < 5000 →
      (loopTick b env).2.heartbeatFired = false ∧
      (loopTick b env).1.heartbeatCount = b.heartbeatCount) := by
  constructor
  · intro h
    constructor
    · simp [loopTick_heartbeatFired, h]
    · rw [loopTick_heartbeatCount, hbUpd_heartbeatCount, if_pos h]
  · intro h
    have h' : ¬ 5000 ≤ hbElapsed b env := by omega
    constructor
    · simp [loopTick_heartbeatFired, h']
    · rw [loopTick_heartbeatCount, hbUpd_heartbeatCount, if_neg h']

theorem c6_heartbeat_period_witness :
    (5000 ≤ hbElapsed errBridge { envGood with now := 6000 } ∧
      (loopTick errBridge { envGood with now := 6000 }).2.heartbeatFired = true ∧
      (loopTick errBridge { envGood with now := 6000 }).1.heartbeatCount
        = (errBridge.heartbeatCount + 1) % ULMAX) ∧
    (hbElapsed errBridge { envGood with now := 60 } < 5000 ∧
      (loopTick errBridge { envGood with now := 60 }).2.heartbeatFired = false ∧
      (loopTick errBridge { envGood with now := 60 }).1.heartbeatCount
        = errBridge.heartbeatCount) :=
  ⟨⟨by decide, (c6_heartbeat_period errBridge _).1 (by decide)⟩,
    ⟨by decide, (c6_heartbeat_period errBridge _).2 (by decide)⟩⟩

/-- C9 (amended): on every heartbeat firing, `lastHeartbeat` is reset to the
current `millis()` reading and the `uint32_t` counter is incremented by one
modulo 2^32; at most one firing per tick (the counter changes by at most one
increment); the counter is non-decreasing across a tick except at the
2^32 wraparound. -/
theorem c9_heartbeat_update (b : Bridge) (env : Env) :
    (5000 ≤ hbElapsed b env →
      (loopTick b env).1.lastHeartbeat = env.now % ULMAX ∧
      (loopTick b env).1.heartbeatCount = (b.heartbeatCount + 1) % ULMAX) ∧
    ((loopTick b env).1.heartbeatCount = b.heartbeatCount ∨
      (loopTick b env).1.heartbeatCount = (b.heartbeatCount + 1) % ULMAX) ∧
    (b.heartbeatCount + 1 < ULMAX →
      b.heartbeatCount ≤ (loopTick b env).1.heartbeatCount) := by
  rw [loopTick_heartbeatCount, loopTick_lastHeartbeat, hbUpd_heartbeatCount]
  unfold hbUpd
  refine ⟨fun h => ?_, ?_, fun hlt => ?_⟩
  · simp [h]
  · split <;> simp
  · split
    · rw [Nat.mod_eq_of_lt hlt]
      omega
    · exact Nat.le_refl _

theorem c9_heartbeat_update_witness :
    5000 ≤ hbElapsed errBridge { envGood with now := 6000 } ∧
    errBridge.heartbeatCount + 1 < ULMAX ∧
    ((loopTick errBridge { envGood with now := 6000 }).1.lastHeartbeat
        = 6000 % ULMAX ∧
      (loopTick errBridge { envGood with now := 6000 }).1.heartbeatCount
        = (errBridge.heartbeatCount + 1) % ULMAX) ∧
    errBridge.heartbeatCount
      ≤ (loopTick errBridge { envGood with now := 6000 }).1.heartbeatCount :=
  ⟨by decide, by decide,
    (c9_heartbeat_update errBridge _).1 (by decide),
    (c9_heartbeat_update errBridge _).2.2 (by decide)⟩

/-- A state with the `uint32_t` heartbeat counter at its maximum value. -/
def wrapBridge : Bridge :=
  { currentState := State.AP_READY, lastHeartbeat := 0,
    clientConnectedTime := 0, heartbeatCount := 4294967295, aaClient := none }

/-- C9 counterexample: at `heartbeatCount = 2^32 - 1` a firing wraps the
counter to 0, so the counter strictly decreases across that tick — it is
not monotonically non-decreasing, and the value does not go up by one. -/
theorem c9_wrap_counterexample :
    5000 ≤ hbElapsed wrapBridge { envGood with now := 5000 } ∧
    (loopTick wrapBridge { envGood with now := 5000 }).1.heartbeatCount
      < wrapBridge.heartbeatCount := by decide

/-- C4: from `CLIENT_CONNECTED`, a tick with a live connected handle and at
least one strictly-positive-length read ends in `AA_ACTIVE`; and from
`AA_ACTIVE` a tick either stays in `AA_ACTIVE` with the same session handle
or moves to `AP_READY` having released the handle — it is never downgraded
to `CLIENT_CONNECTED` while the same session is live. -/
theorem c4_first_activity (b : Bridge) (env : Env) :
    (b.currentState = State.CLIENT_CONNECTED → b.aaClient.isSome = true →
      env.peerConnected = true → (∃ r ∈ env.reads, 0 < r) →
      (loopTick b env).1.currentState = State.AA_ACTIVE) ∧
    (b.currentState = State.AA_ACTIVE →
      ((loopTick b env).1.currentState = State.AA_ACTIVE ∧
        (loopTick b env).1.aaClient = b.aaClient) ∨
      ((loopTick b env).1.currentState = State.AP_READY ∧
        (loopTick b env).1.aaClient = none)) := by
  constructor
  · intro hc hsome hp hr
    have hnn : b.aaClient.isNone = false := by
      cases hx : b.aaClient <;> simp_all
    have hs : (hbUpd b env).currentState = State.CLIENT_CONNECTED := by
      rw [hbUpd_currentState, hc]
    simp [loopTick, hc, handleClient, hbUpd_aaClient, hnn, hp, hs,
      drainState_CC_pos env.reads hr]
  · intro hc
    have hs : (hbUpd b env).currentState = State.AA_ACTIVE := by
      rw [hbUpd_currentState, hc]
    by_cases hn : b.aaClient = none
    · right
      simp [loopTick, hc, handleClient, hbUpd_aaClient, hn, stopClient]
    · have hnn : b.aaClient.isNone = false := by
        cases hx : b.aaClient
        · exact absurd hx hn
        · rfl
      by_cases hp : env.peerConnected = true
      · left
        simp [loopTick, hc, handleClient, hbUpd_aaClient, hnn, hp, hs,
          drainState_AA]
      · have hp' : env.peerConnected = false := by
          revert hp
          cases env.peerConnected <;> simp
        right
        simp [loopTick, hc, handleClient, hbUpd_aaClient, hp', stopClient]

/-- C10: from `CLIENT_CONNECTED`, a tick with a live connected handle in
which every read returns length ≤ 0 stays in `CLIENT_CONNECTED`: the
first-activity transition fires only on a strictly positive read length. -/
theorem c10_nonpositive_reads (b : Bridge) (env : Env)
    (hc : b.currentState = State.CLIENT_CONNECTED)
    (hsome : b.aaClient.isSome = true) (hp : env.peerConnected = true)
    (hr : ∀ r ∈ env.reads, r ≤ 0) :
    (loopTick b env).1.currentState = State.CLIENT_CONNECTED := by
  have hnn : b.aaClient.isNone = false := by
    cases hx : b.aaClient <;> simp_all
  have hs : (hbUpd b env).currentState = State.CLIENT_CONNECTED := by
    rw [hbUpd_currentState, hc]
  simp [loopTick, hc, handleClient, hbUpd_aaClient, hnn, hp, hs,
    drainState_nonpos State.CLIENT_CONNECTED env.reads hr]

/-- C5: from `CLIENT_CONNECTED` or `AA_ACTIVE`, a tick in which the peer is
detected as no longer connected (invalid handle or `connected()` false)
releases the session handle and moves to `AP_READY` within that tick, with
no reads performed; releasing an already-released handle is a no-op. -/
theorem c5_disconnect_release (b : Bridge) (env : Env)
    (hs : b.currentState = State.CLIENT_CONNECTED ∨
      b.currentState = State.AA_ACTIVE)
    (hd : b.aaClient = none ∨ env.peerConnected = false) :
    (loopTick b env).1.currentState = State.AP_READY ∧
    (loopTick b env).1.aaClient = none ∧
    (loopTick b env).2.readsDone = 0 ∧
    (∀ c : Option Nat, stopClient (stopClient c) = stopClient c) := by
  have hdb : ((hbUpd b env).aaClient.isNone || !env.peerConnected) = true := by
    rcases hd with hd | hd <;> simp [hbUpd_aaClient, hd]
  rcases hs with hc | hc <;>
    simp [loopTick, hc, handleClient, hdb, stopClient]

/-- C8: whenever a tick actually executes the reject branch (the transient
accept-then-stop of a second pending connection while the held handle is
live and connected), the existing session's remote address (`aaClient`),
its connection timestamp (`clientConnectedTime`) and the activity state
(`currentState`, which encodes the activity flag as
`CLIENT_CONNECTED` vs `AA_ACTIVE`) are all unchanged by the tick. -/
theorem c8_reject_frame (b : Bridge) (env : Env)
    (h : (loopTick b env).2.pendingStopped = true) :
    (loopTick b env).1.aaClient = b.aaClient ∧
    (loopTick b env).1.clientConnectedTime = b.clientConnectedTime ∧
    (loopTick b env).1.currentState = b.currentState := by
  cases hc : b.currentState
  case INIT => simp [loopTick, hc] at h
  case AP_STARTING => simp [loopTick, hc] at h
  case ERROR => simp [loopTick, hc] at h
  case CLIENT_CONNECTED => simp [loopTick, hc] at h
  case AA_ACTIVE => simp [loopTick, hc] at h
  case AP_READY =>
    by_cases hhc : env.hasClient = true
    · by_cases hcc : b.aaClient.isSome = true ∧ env.peerConnected = true
      · obtain ⟨h1, h2⟩ := hcc
        refine ⟨?_, ?_, ?_⟩ <;>
          simp [loopTick, hc, hhc, h1, h2, hbUpd_aaClient,
            hbUpd_clientConnectedTime, hbUpd_currentState]
      · cases hp : env.pending <;>
          simp [loopTick, hc, hhc, hbUpd_aaClient, hcc, hp] at h
    · simp [loopTick, hc, hhc] at h

/-- An `AP_READY` state still holding a live handle, and a tick in which a
second connection is pending and the held peer is still connected: the
reject branch runs. -/
def rejBridge : Bridge :=
  { currentState := State.AP_READY, lastHeartbeat := 0,
    clientConnectedTime := 42, heartbeatCount := 3, aaClient := some 7 }

def rejEnv : Env :=
  { now := 100, hasClient := true, pending := some 9, peerConnected := true,
    reads := [], configOk := true, startOk := true }

theorem c8_reject_frame_witness :
    (loopTick rejBridge rejEnv).2.pendingStopped = true ∧
    ((loopTick rejBridge rejEnv).1.aaClient = rejBridge.aaClient ∧
      (loopTick rejBridge rejEnv).1.clientConnectedTime
        = rejBridge.clientConnectedTime ∧
      (loopTick rejBridge rejEnv).1.currentState = rejBridge.currentState) :=
  ⟨by decide, c8_reject_frame rejBridge rejEnv (by decide)⟩

/-- C1 (amended): while the state is `CLIENT_CONNECTED` or `AA_ACTIVE` the
listener is never polled, so a pending second connection attempt is neither
accepted nor released during that tick; the tick behaves exactly as if no
attempt were pending, and the pending peer does not become the live session
(`aaClient` is either kept or released, never replaced). -/
theorem c1_no_admission_in_session (b : Bridge) (env : Env)
    (hs : b.currentState = State.CLIENT_CONNECTED ∨
      b.currentState = State.AA_ACTIVE) :
    (loopTick b env).2.pendingAccepted = false ∧
    (loopTick b env).2.pendingStopped = false ∧
    ((loopTick b env).1.aaClient = b.aaClient ∨
      (loopTick b env).1.aaClient = none) ∧
    loopTick b env = loopTick b { env with hasClient := false, pending := none } := by
  have hcl : (loopTick b env).1.aaClient = b.aaClient ∨
      (loopTick b env).1.aaClient = none := by
    rcases hs with hc | hc <;>
      · simp only [loopTick, hc]
        unfold handleClient
        split
        · right; rfl
        · left
          simp [hbUpd_aaClient]
  rcases hs with hc | hc <;>
    exact ⟨by simp [loopTick, hc], by simp [loopTick, hc], hcl,
      by simp only [loopTick, hc]; rfl⟩

/-- A live session in `AA_ACTIVE` and a tick with a second connection
attempt pending. -/
def busyBridge : Bridge :=
  { currentState := State.AA_ACTIVE, lastHeartbeat := 0,
    clientConnectedTime := 10, heartbeatCount := 1, aaClient := some 7 }

def busyEnv : Env :=
  { now := 20, hasClient := true, pending := some 9, peerConnected := true,
    reads := [], configOk := true, startOk := true }

/-- C1 counterexample: with a live session and state `AA_ACTIVE`, a pending
second connection attempt is NOT accepted (and hence not released) during
that tick — the dispatch never reaches the listener poll, contradicting the
claim that the attempt is accepted transiently and immediately released. -/
theorem c1_counterexample :
    busyBridge.currentState = State.AA_ACTIVE ∧
    busyBridge.aaClient.isSome = true ∧
    busyEnv.hasClient = true ∧
    busyEnv.pending.isSome = true ∧
    (loopTick busyBridge busyEnv).2.pendingAccepted = false ∧
    (loopTick busyBridge busyEnv).2.pendingStopped = false := by decide

theorem c1_no_admission_in_session_witness :
    (busyBridge.currentState = State.CLIENT_CONNECTED ∨
      busyBridge.currentState = State.AA_ACTIVE) ∧
    ((loopTick busyBridge busyEnv).2.pendingAccepted = false ∧
      (loopTick busyBridge busyEnv).2.pendingStopped = false ∧
      ((loopTick busyBridge busyEnv).1.aaClient = busyBridge.aaClient ∨
        (loopTick busyBridge busyEnv).1.aaClient = none) ∧
      loopTick busyBridge busyEnv
        = loopTick busyBridge { busyEnv with hasClient := false, pending := none }) :=
  ⟨Or.inr rfl, c1_no_admission_in_session busyBridge busyEnv (Or.inr rfl)⟩

/-- A freshly admitted session in `CLIENT_CONNECTED` with data arriving. -/
def connBridge : Bridge :=
  { currentState := State.CLIENT_CONNECTED, lastHeartbeat := 0,
    clientConnectedTime := 10, heartbeatCount := 1, aaClient := some 7 }

def dataEnv : Env :=
  { now := 20, hasClient := false, pending := none, peerConnected := true,
    reads := [512, 16], configOk := true, startOk := true }

def idleEnv : Env :=
  { now := 20, hasClient := false, pending := none, peerConnected := true,
    reads := [0, -1], configOk := true, startOk := true }

def goneEnv : Env :=
  { now := 20, hasClient := false, pending := none, peerConnected := false,
    reads := [], configOk := true, startOk := true }

theorem c4_first_activity_witness :
    (connBridge.currentState = State.CLIENT_CONNECTED ∧
      connBridge.aaClient.isSome = true ∧ dataEnv.peerConnected = true ∧
      (∃ r ∈ dataEnv.reads, 0 < r) ∧
      (loopTick connBridge dataEnv).1.currentState = State.AA_ACTIVE) ∧
    (busyBridge.currentState = State.AA_ACTIVE ∧
      (((loopTick busyBridge dataEnv).1.currentState = State.AA_ACTIVE ∧
        (loopTick busyBridge dataEnv).1.aaClient = busyBridge.aaClient) ∨
      ((loopTick busyBridge dataEnv).1.currentState = State.AP_READY ∧
        (loopTick busyBridge dataEnv).1.aaClient = none))) :=
  ⟨⟨rfl, rfl, rfl, by decide,
      (c4_first_activity connBridge dataEnv).1 rfl rfl rfl (by decide)⟩,
    ⟨rfl, (c4_first_activity busyBridge dataEnv).2 rfl⟩⟩

theorem c10_nonpositive_reads_witness :
    connBridge.currentState = State.CLIENT_CONNECTED ∧
    connBridge.aaClient.isSome = true ∧ idleEnv.peerConnected = true ∧
    (∀ r ∈ idleEnv.reads, r ≤ 0) ∧
    (loopTick connBridge idleEnv).1.currentState = State.CLIENT_CONNECTED :=
  ⟨rfl, rfl, rfl, by decide,
    c10_nonpositive_reads connBridge idleEnv rfl rfl rfl (by decide)⟩

theorem c5_disconnect_release_witness :
    (connBridge.currentState = State.CLIENT_CONNECTED ∨
      connBridge.currentState = State.AA_ACTIVE) ∧
    (connBridge.aaClient = none ∨ goneEnv.peerConnected = false) ∧
    ((loopTick connBridge goneEnv).1.currentState = State.AP_READY ∧
      (loopTick connBridge goneEnv).1.aaClient = none ∧
      (loopTick connBridge goneEnv).2.readsDone = 0 ∧
      (∀ c : Option Nat, stopClient (stopClient c) = stopClient c)) :=
  ⟨Or.inl rfl, Or.inr rfl,
    c5_disconnect_release connBridge goneEnv (Or.inl rfl) (Or.inr rfl)⟩
